import Mathlib

set_option autoImplicit false

/-!
Shallow embedding of the dfu-nusb crate (file `src/lib.rs`): a USB transport
adapter binding a DFU-capable device for a generic DFU protocol engine.

Machine integers (`u8`, `u16`, `usize`) are modelled as `Nat`; the functions
below never wrap, so no explicit modulus is needed.  Opaque foreign error
payloads (`std::io::Error`, nusb `TransferError`, dfu_core errors) are
modelled as `Nat` codes.  Fallible Rust code returning `Result`/`Option`
becomes `Except`/`Option`.  The behaviour of the external collaborators
(the nusb USB access layer and the dfu_core protocol layer) is passed in
explicitly as function-valued fields and parameters, so every theorem
quantifies over what those collaborators may do.
-/

/-- nusb `ControlType`: the transfer class of a control request. -/
inductive ControlType where
  | standard
  | class_
  | vendor
deriving DecidableEq

/-- nusb `Recipient` of a control request. -/
inductive Recipient where
  | device
  | interface
  | endpoint
  | other
deriving DecidableEq

/-- `explode_request_type` from `src/lib.rs` lines 182-195: split an 8-bit
`bmRequestType` value into the transfer class (bits 5-6) and the recipient
(bits 0-1).  Total and pure by construction. -/
def explode_request_type (request_type : Nat) : ControlType × Recipient :=
  let control_type :=
    match (request_type >>> 5) &&& 0b11 with
    | 0 => ControlType.standard
    | 1 => ControlType.class_
    | _ => ControlType.vendor
  let recipient :=
    match request_type &&& 0b11 with
    | 0 => Recipient.device
    | 1 => Recipient.interface
    | 2 => Recipient.endpoint
    | _ => Recipient.other
  (control_type, recipient)

/-- The `Error` enum of `src/lib.rs` lines 11-31.  Variants wrapping foreign
error types carry an opaque `Nat` payload. -/
inductive Error where
  | couldNotOpenDevice
  | dfu (e : Nat)
  | io (e : Nat)
  | transfer (e : Nat)
  | missingLanguage
  | invalidInterface
  | invalidAlt
  | functionalDescriptor (e : Nat)
  | noDfuCapableDeviceFound
deriving DecidableEq

/-- dfu_core `FunctionalDescriptor` value.  Of its fields only `dfu_version`
(`bcdDFUVersion`) is read by this crate, so the remaining fields (capability
flags, detach timeout, transfer size) are not modelled. -/
structure FunctionalDescriptor where
  dfu_version : Nat
deriving DecidableEq

/-- dfu_core `DfuProtocol` value, opaque to this crate: it is produced by the
external `DfuProtocol::new` collaborator and only stored and handed back by
the adapter. -/
structure DfuProtocol where
  id : Nat
deriving DecidableEq

/-- Rust slice iterator `chunks(9)` (as used on the descriptor byte stream in
`find_functional_descriptor`): consecutive windows of 9 bytes, the final
window holding the fewer than 9 remaining bytes when the length is not a
multiple of 9.  An empty stream yields no window. -/
def chunks9 {α : Type} : List α → List (List α)
  | a1 :: a2 :: a3 :: a4 :: a5 :: a6 :: a7 :: a8 :: a9 :: rest =>
      [a1, a2, a3, a4, a5, a6, a7, a8, a9] :: chunks9 rest
  | [] => []
  | l => [l]

/-- Modelled from the spec: dfu_core
`FunctionalDescriptor::from_bytes`, the functional-descriptor byte-layout
parser.  It is an external collaborator of this crate and its code is not
under `src/`.  Per spec section 4.2 and the glossary: a window whose
descriptor-type field (byte 1) holds the DFU functional descriptor type code
(0x21) is a candidate; a candidate too short for the full 9-byte layout fails
structural validation (`some (error _)`); a window with no descriptor-type
match yields `none`; a structurally valid candidate parses, its
`bcdDFUVersion` being the little-endian 16-bit field at bytes 7-8. -/
def fdFromBytes : List Nat → Option (Except Nat FunctionalDescriptor)
  | _ :: b1 :: _ :: _ :: _ :: _ :: _ :: b7 :: b8 :: _ =>
      if b1 = 0x21 then some (Except.ok ⟨b7 + 256 * b8⟩) else none
  | _ :: b1 :: _ =>
      if b1 = 0x21 then some (Except.error 0) else none
  | _ => none

/-- The `for desc_data in ... chunks(9)` loop body of
`find_functional_descriptor` (`src/lib.rs` lines 172-176): the first window
the parser recognises decides the result; its parse error, if any, is wrapped
into the crate's `Error` (the `map_err(Into::into)` call). -/
def findLoop (from_bytes : List Nat → Option (Except Nat FunctionalDescriptor)) :
    List (List Nat) → Option (Except Error FunctionalDescriptor)
  | [] => none
  | w :: ws =>
    match from_bytes w with
    | some r => some (r.mapError Error.functionalDescriptor)
    | none => findLoop from_bytes ws

/-- A nusb alternate-setting descriptor: its number and optional
string-descriptor index. -/
structure AltSetting where
  alternate_setting : Nat
  string_index : Option Nat
deriving DecidableEq

/-- A nusb interface group within a configuration: its number and its
alternate settings. -/
structure InterfaceGroup where
  interface_number : Nat
  alt_settings : List AltSetting
deriving DecidableEq

/-- A nusb `Configuration`: its interface list and the raw descriptor byte
stream (`config.descriptors().as_bytes()`). -/
structure Configuration where
  interfaces : List InterfaceGroup
  descriptor_bytes : List Nat
deriving DecidableEq

/-- nusb `Device` handle: its configurations together with the observable
behaviour of the USB access layer calls the binder makes on it.  The errors
those calls can produce are modelled after conversion through the crate's
`From` instances (the `?` operator), since only the converted `Error` value
is ever observed. -/
structure Device where
  configurations : List Configuration
  claim_result : Nat → Except Error Unit
  set_alt_result : Nat → Nat → Except Error Unit
  string_descriptor : Nat → Except Error (List Char)

/-- nusb `DeviceInfo` as observed by `open_device`: ids plus what opening the
device returns (`Nat` payload = OS-level `std::io::Error` code). -/
structure DeviceInfo where
  vendor_id : Nat
  product_id : Nat
  open_result : Except Nat Device

/-- The `DfuNusb` transport adapter (`src/lib.rs` lines 33-39).  The owned
nusb `Interface` handle is represented by its interface number, the only
datum of it the adapter operations observe; the `Device` handle is only used
by `usb_reset`, which no claim concerns, and is omitted.  `timeout` is in
milliseconds. -/
structure DfuNusb where
  iface_number : Nat
  protocol : DfuProtocol
  timeout : Nat
  functional_descriptor : FunctionalDescriptor
deriving DecidableEq

/-- `DfuNusb::find_functional_descriptor` (`src/lib.rs` lines 167-179): scan
the raw descriptor stream of the configuration in `chunks(9)` windows.
`_device` and `_timeout` are unused, as in the source; the parser
`from_bytes` is dfu_core's, passed explicitly. -/
def DfuNusb.find_functional_descriptor
    (from_bytes : List Nat → Option (Except Nat FunctionalDescriptor))
    (_device : Device) (config : Configuration) (_timeout : Nat) :
    Option (Except Error FunctionalDescriptor) :=
  findLoop from_bytes (chunks9 config.descriptor_bytes)

/-- `DfuNusb::open_device` (`src/lib.rs` lines 114-122).  `list_devices` is
the result of `nusb::list_devices()` (whose own failure, an io error, the
`?` operator converts to `Error::Io`); a matched device that fails to open at
the OS level has its io error converted by `map_err(|e| e.into())`. -/
def DfuNusb.open_device (list_devices : Except Nat (List DeviceInfo))
    (vid pid : Nat) : Except Error Device :=
  match list_devices with
  | .error e => .error (.io e)
  | .ok devices =>
    match devices.find? (fun d => d.vendor_id == vid && d.product_id == pid) with
    | none => .error .couldNotOpenDevice
    | some dev_info =>
      match dev_info.open_result with
      | .error e => .error (.io e)
      | .ok device => .ok device

/-- Rust `trim_end_matches(char(0))` on the retrieved string: remove every
trailing NUL character. -/
def trimEndNulls (s : List Char) : List Char :=
  (s.reverse.dropWhile (fun c => c == Char.ofNat 0)).reverse

/-- Observable resource and side-effect events of the binding routine.
`release` records nusb's `Interface` handle giving up its claim when the
handle is dropped (Rust RAII; the handle is a local of `from_usb_device`
that is moved into the returned adapter only on success).  `getString`
records a `get_string_descriptor(index, language, timeout_ms)` call. -/
inductive Event where
  | claim (iface_num : Nat)
  | setAlt (alt : Nat)
  | getString (index lang timeout_ms : Nat)
  | release (iface_num : Nat)
deriving DecidableEq

/-- One iteration of the `for config in device.configurations()` loop of
`from_usb_device` (`src/lib.rs` lines 132-162).  `none` means the iteration
falls through to the next configuration (locator found nothing, or the
matched alt-setting has no string index); `some r` means the loop body ends
the whole function with `r`.  The second component lists the collaborator
calls the iteration performs.  `protocol_new` is dfu_core
`DfuProtocol::new`, its error already converted through `From`. -/
def processConfig
    (from_bytes : List Nat → Option (Except Nat FunctionalDescriptor))
    (protocol_new : List Char → Nat → Except Error DfuProtocol)
    (device : Device) (iface_num alt : Nat) (config : Configuration) :
    Option (Except Error DfuNusb) × List Event :=
  match DfuNusb.find_functional_descriptor from_bytes device config 3000 with
  | none => (none, [])
  | some (.error e) => (some (.error e), [])
  | some (.ok func_desc) =>
    match config.interfaces.find? (fun x => x.interface_number == iface_num) with
    | none => (some (.error .invalidInterface), [])
    | some intf =>
      match intf.alt_settings.find? (fun x => x.alternate_setting == alt) with
      | none => (some (.error .invalidAlt), [])
      | some setting =>
        match setting.string_index with
        | none => (none, [])
        | some string_ix =>
          match device.string_descriptor string_ix with
          | .error e => (some (.error e), [.getString string_ix 0 1000])
          | .ok s =>
            match protocol_new (trimEndNulls s) func_desc.dfu_version with
            | .error e => (some (.error e), [.getString string_ix 0 1000])
            | .ok protocol =>
              (some (.ok { iface_number := iface_num, protocol := protocol,
                           timeout := 3000, functional_descriptor := func_desc }),
               [.getString string_ix 0 1000])

/-- The whole configuration loop of `from_usb_device`: run `processConfig`
on each configuration until one ends the function, accumulating events. -/
def bindConfigs
    (from_bytes : List Nat → Option (Except Nat FunctionalDescriptor))
    (protocol_new : List Char → Nat → Except Error DfuProtocol)
    (device : Device) (iface_num alt : Nat) :
    List Configuration → Option (Except Error DfuNusb) × List Event
  | [] => (none, [])
  | config :: rest =>
    match processConfig from_bytes protocol_new device iface_num alt config with
    | (some r, ev) => (some r, ev)
    | (none, ev) =>
      let out := bindConfigs from_bytes protocol_new device iface_num alt rest
      (out.1, ev ++ out.2)

/-- `DfuNusb::from_usb_device` (`src/lib.rs` lines 124-165), instrumented
with the trace of resource events.  Rust drop semantics of the source: the
claimed `Interface` is a local, moved into the returned `DfuNusb` on the
success path and dropped - which releases the claim - on every other exit
path; the `release` events record exactly those drops.  `DfuSync::new` is an
external wrapper, so the adapter value itself is returned. -/
def DfuNusb.from_usb_device
    (from_bytes : List Nat → Option (Except Nat FunctionalDescriptor))
    (protocol_new : List Char → Nat → Except Error DfuProtocol)
    (device : Device) (iface_num alt : Nat) :
    Except Error DfuNusb × List Event :=
  match device.claim_result iface_num with
  | .error e => (.error e, [])
  | .ok _ =>
    match device.set_alt_result iface_num alt with
    | .error e => (.error e, [.claim iface_num, .release iface_num])
    | .ok _ =>
      match bindConfigs from_bytes protocol_new device iface_num alt
          device.configurations with
      | (some (.ok io), ev) =>
        (.ok io, .claim iface_num :: .setAlt alt :: ev)
      | (some (.error e), ev) =>
        (.error e, .claim iface_num :: .setAlt alt :: (ev ++ [.release iface_num]))
      | (none, ev) =>
        (.error .noDfuCapableDeviceFound,
         .claim iface_num :: .setAlt alt :: (ev ++ [.release iface_num]))

/-- nusb `Control` parameter block of a control transfer. -/
structure Control where
  control_type : ControlType
  recipient : Recipient
  request : Nat
  value : Nat
  index : Nat
deriving DecidableEq

/-- Behaviour of nusb's blocking control-transfer entry points on the claimed
interface.  Arguments after the `Control` block: the buffer length (IN) or
buffer contents (OUT), then the timeout in milliseconds; errors are
`TransferError` codes, successes the raw transfer length. -/
structure TransferWorld where
  control_in_blocking : Control → Nat → Nat → Except Nat Nat
  control_out_blocking : Control → List Nat → Nat → Except Nat Nat

/-- `DfuNusb::read_control` (`src/lib.rs` lines 50-70), instrumented to also
return the `Control` block it issues.  The `Ok(res?)` of the source converts
a `TransferError` into `Error::Transfer` and passes a success through. -/
def DfuNusb.read_control (world : TransferWorld) (self : DfuNusb)
    (request_type request value : Nat) (buffer_len : Nat) :
    Except Error Nat × Control :=
  let p := explode_request_type request_type
  let ctrl : Control :=
    { control_type := p.1, recipient := p.2, request := request,
      value := value, index := self.iface_number }
  let res :=
    match world.control_in_blocking ctrl buffer_len self.timeout with
    | .ok n => Except.ok n
    | .error e => Except.error (Error.transfer e)
  (res, ctrl)

/-- `DfuNusb::write_control` (`src/lib.rs` lines 72-93), instrumented like
`read_control`. -/
def DfuNusb.write_control (world : TransferWorld) (self : DfuNusb)
    (request_type request value : Nat) (buffer : List Nat) :
    Except Error Nat × Control :=
  let p := explode_request_type request_type
  let ctrl : Control :=
    { control_type := p.1, recipient := p.2, request := request,
      value := value, index := self.iface_number }
  let res :=
    match world.control_out_blocking ctrl buffer self.timeout with
    | .ok n => Except.ok n
    | .error e => Except.error (Error.transfer e)
  (res, ctrl)

/-! ### Helper lemmas about the chunking of the descriptor stream -/

/-- Case analysis matching the three arms of `chunks9`. -/
theorem chunks9_cases {α : Type} (l : List α) :
    (l = [] ∧ chunks9 l = []) ∨
    (l ≠ [] ∧ l.length < 9 ∧ chunks9 l = [l]) ∨
    (∃ w rest, l = w ++ rest ∧ w.length = 9 ∧ chunks9 l = w :: chunks9 rest) := by
  rcases l with _ | ⟨a1, _ | ⟨a2, _ | ⟨a3, _ | ⟨a4, _ | ⟨a5, _ | ⟨a6, _ | ⟨a7,
    _ | ⟨a8, _ | ⟨a9, rest⟩⟩⟩⟩⟩⟩⟩⟩⟩
  · exact Or.inl ⟨rfl, rfl⟩
  · exact Or.inr (Or.inl ⟨by simp, by simp, rfl⟩)
  · exact Or.inr (Or.inl ⟨by simp, by simp, rfl⟩)
  · exact Or.inr (Or.inl ⟨by simp, by simp, rfl⟩)
  · exact Or.inr (Or.inl ⟨by simp, by simp, rfl⟩)
  · exact Or.inr (Or.inl ⟨by simp, by simp, rfl⟩)
  · exact Or.inr (Or.inl ⟨by simp, by simp, rfl⟩)
  · exact Or.inr (Or.inl ⟨by simp, by simp, rfl⟩)
  · exact Or.inr (Or.inl ⟨by simp, by simp, rfl⟩)
  · exact Or.inr (Or.inr ⟨[a1, a2, a3, a4, a5, a6, a7, a8, a9], rest, rfl, rfl, rfl⟩)

/-- The windows concatenate back to the stream: the scan inspects exactly the
bytes of the stream, none outside it. -/
theorem chunks9_flatten {α : Type} (l : List α) : (chunks9 l).flatten = l := by
  rcases chunks9_cases l with ⟨h1, h2⟩ | ⟨_, _, h3⟩ | ⟨w, rest, h1, h2, h3⟩
  · rw [h2, h1]; rfl
  · rw [h3]; simp
  · rw [h3, List.flatten_cons, chunks9_flatten rest, ← h1]
termination_by l.length
decreasing_by simp only [h1, List.length_append, h2]; omega

/-- Every window is at most 9 bytes long. -/
theorem chunks9_mem_length {α : Type} (l : List α) (w : List α)
    (hw : w ∈ chunks9 l) : w.length ≤ 9 := by
  rcases chunks9_cases l with ⟨_, h2⟩ | ⟨_, h2, h3⟩ | ⟨v, rest, h1, h2, h3⟩
  · rw [h2] at hw; simp at hw
  · rw [h3] at hw
    simp at hw
    subst hw
    omega
  · rw [h3] at hw
    rcases List.mem_cons.1 hw with h | h
    · subst h; omega
    · exact chunks9_mem_length rest w h
termination_by l.length
decreasing_by simp only [h1, List.length_append, h2]; omega

/-- A nonempty stream has at least one window. -/
theorem chunks9_ne_nil {α : Type} (l : List α) (h : l ≠ []) : chunks9 l ≠ [] := by
  rcases chunks9_cases l with ⟨h1, _⟩ | ⟨_, _, h3⟩ | ⟨w, rest, _, _, h3⟩
  · exact absurd h1 h
  · rw [h3]; simp
  · rw [h3]; simp

/-- When the stream length is not a multiple of 9, the final window is the
partial one: it holds exactly the `length % 9` remaining bytes. -/
theorem chunks9_last_of_mod {α : Type} (l : List α) (h : l.length % 9 ≠ 0) :
    ((chunks9 l).getLast?).map (fun w => w.length) = some (l.length % 9) := by
  rcases chunks9_cases l with ⟨h1, _⟩ | ⟨_, h2, h3⟩ | ⟨w, rest, h1, h2, h3⟩
  · subst h1; simp at h
  · rw [h3]
    simp [Nat.mod_eq_of_lt h2]
  · rw [h3]
    have hllen : l.length = 9 + rest.length := by
      rw [h1]; simp only [List.length_append, h2]
    by_cases hrest : rest = []
    · exfalso
      rw [hrest] at hllen
      simp only [List.length_nil] at hllen
      omega
    · have hne := chunks9_ne_nil rest hrest
      obtain ⟨b, bs, hbc⟩ := List.exists_cons_of_ne_nil hne
      have hmod : rest.length % 9 ≠ 0 := by omega
      rw [hbc, List.getLast?_cons_cons, ← hbc, chunks9_last_of_mod rest hmod]
      congr 1
      omega
termination_by l.length
decreasing_by simp only [h1, List.length_append, h2]; omega

/-- A window shorter than the full 9-byte layout never parses as a valid
functional descriptor (it is either no descriptor-type match at all, or a
candidate failing structural validation). -/
theorem fdFromBytes_short_not_ok (w : List Nat) (hw : w.length < 9)
    (d : FunctionalDescriptor) : fdFromBytes w ≠ some (Except.ok d) := by
  rcases w with _ | ⟨a1, _ | ⟨a2, _ | ⟨a3, _ | ⟨a4, _ | ⟨a5, _ | ⟨a6, _ | ⟨a7,
    _ | ⟨a8, _ | ⟨a9, rest⟩⟩⟩⟩⟩⟩⟩⟩⟩
  · simp [fdFromBytes]
  · simp [fdFromBytes]
  all_goals first
    | (exfalso; simp only [List.length_cons] at hw; omega)
    | (simp only [fdFromBytes]
       split
       · simp
       · simp)

/-! ### Helper lemmas about the locator loop -/

/-- The loop yields nothing exactly when the parser matches no window. -/
theorem findLoop_eq_none_iff
    (from_bytes : List Nat → Option (Except Nat FunctionalDescriptor)) :
    ∀ ws : List (List Nat),
      findLoop from_bytes ws = none ↔ ∀ w ∈ ws, from_bytes w = none
  | [] => by simp [findLoop]
  | w :: ws => by
    cases h : from_bytes w with
    | some r => simp [findLoop, h]
    | none => simp [findLoop, h, findLoop_eq_none_iff from_bytes ws]

/-- Windows the parser does not match are skipped by the loop. -/
theorem findLoop_append_skip
    (from_bytes : List Nat → Option (Except Nat FunctionalDescriptor))
    (pre : List (List Nat)) (hpre : ∀ w ∈ pre, from_bytes w = none)
    (ws : List (List Nat)) :
    findLoop from_bytes (pre ++ ws) = findLoop from_bytes ws := by
  induction pre with
  | nil => rfl
  | cons w rest ih =>
    have hw : from_bytes w = none := hpre w (by simp)
    have hrest : ∀ v ∈ rest, from_bytes v = none := fun v hv => hpre v (by simp [hv])
    simp [findLoop, hw, ih hrest]

/-! ### Helper lemmas about the configuration loop of the binder -/

/-- A configuration falls through the loop iteration when the locator finds
nothing in it, and also when it yields a descriptor whose matched alt-setting
advertises no string index. -/
theorem processConfig_skip
    (from_bytes : List Nat → Option (Except Nat FunctionalDescriptor))
    (protocol_new : List Char → Nat → Except Error DfuProtocol)
    (device : Device) (iface_num alt : Nat) (config : Configuration)
    (h : DfuNusb.find_functional_descriptor from_bytes device config 3000 = none ∨
      ∃ fd intf setting,
        DfuNusb.find_functional_descriptor from_bytes device config 3000 =
          some (.ok fd) ∧
        config.interfaces.find? (fun x => x.interface_number == iface_num) =
          some intf ∧
        intf.alt_settings.find? (fun x => x.alternate_setting == alt) =
          some setting ∧
        setting.string_index = none) :
    processConfig from_bytes protocol_new device iface_num alt config =
      (none, []) := by
  rcases h with h | ⟨fd, intf, setting, hfd, hintf, hsetting, hix⟩
  · simp [processConfig, h]
  · simp [processConfig, hfd, hintf, hsetting, hix]

/-- Configurations that fall through are skipped by the loop, events and all. -/
theorem bindConfigs_append_skip
    (from_bytes : List Nat → Option (Except Nat FunctionalDescriptor))
    (protocol_new : List Char → Nat → Except Error DfuProtocol)
    (device : Device) (iface_num alt : Nat) (pre : List Configuration)
    (hpre : ∀ c ∈ pre,
      processConfig from_bytes protocol_new device iface_num alt c = (none, []))
    (rest : List Configuration) :
    bindConfigs from_bytes protocol_new device iface_num alt (pre ++ rest) =
      bindConfigs from_bytes protocol_new device iface_num alt rest := by
  induction pre with
  | nil => rfl
  | cons c cs ih =>
    have hc := hpre c (by simp)
    have hcs : ∀ c2 ∈ cs,
        processConfig from_bytes protocol_new device iface_num alt c2 =
          (none, []) :=
      fun c2 hc2 => hpre c2 (by simp [hc2])
    simp [bindConfigs, hc, ih hcs]

/-- Every event a loop iteration emits is a `getString` call. -/
theorem processConfig_events
    (from_bytes : List Nat → Option (Except Nat FunctionalDescriptor))
    (protocol_new : List Char → Nat → Except Error DfuProtocol)
    (device : Device) (iface_num alt : Nat) (config : Configuration)
    (x : Event)
    (hx : x ∈ (processConfig from_bytes protocol_new device iface_num alt
      config).2) :
    ∃ i lg t, x = Event.getString i lg t := by
  unfold processConfig at hx
  repeat' split at hx
  all_goals simp at hx
  all_goals exact ⟨_, _, _, hx⟩

/-- Every event the configuration loop emits is a `getString` call. -/
theorem bindConfigs_events
    (from_bytes : List Nat → Option (Except Nat FunctionalDescriptor))
    (protocol_new : List Char → Nat → Except Error DfuProtocol)
    (device : Device) (iface_num alt : Nat) :
    ∀ (configs : List Configuration) (x : Event),
      x ∈ (bindConfigs from_bytes protocol_new device iface_num alt configs).2 →
      ∃ i lg t, x = Event.getString i lg t
  | [], x, hx => by simp [bindConfigs] at hx
  | c :: cs, x, hx => by
    rw [bindConfigs] at hx
    rcases hp : processConfig from_bytes protocol_new device iface_num alt c
      with ⟨r, ev⟩
    rw [hp] at hx
    match r with
    | some r2 =>
      simp at hx
      exact processConfig_events from_bytes protocol_new device iface_num alt c
        x (by rw [hp]; exact hx)
    | none =>
      simp at hx
      rcases hx with hx | hx
      · exact processConfig_events from_bytes protocol_new device iface_num alt
          c x (by rw [hp]; exact hx)
      · exact bindConfigs_events from_bytes protocol_new device iface_num alt
          cs x hx

/-- A successful loop iteration returns an adapter holding the bound
interface number. -/
theorem processConfig_ok_iface
    (from_bytes : List Nat → Option (Except Nat FunctionalDescriptor))
    (protocol_new : List Char → Nat → Except Error DfuProtocol)
    (device : Device) (iface_num alt : Nat) (config : Configuration)
    (io : DfuNusb) (ev : List Event)
    (h : processConfig from_bytes protocol_new device iface_num alt config =
      (some (.ok io), ev)) :
    io.iface_number = iface_num := by
  unfold processConfig at h
  repeat' split at h
  all_goals simp at h
  all_goals simp [← h.1]

/-- A successful configuration loop returns an adapter holding the bound
interface number. -/
theorem bindConfigs_ok_iface
    (from_bytes : List Nat → Option (Except Nat FunctionalDescriptor))
    (protocol_new : List Char → Nat → Except Error DfuProtocol)
    (device : Device) (iface_num alt : Nat) :
    ∀ (configs : List Configuration) (io : DfuNusb) (ev : List Event),
      bindConfigs from_bytes protocol_new device iface_num alt configs =
        (some (.ok io), ev) →
      io.iface_number = iface_num
  | [], io, ev, h => by simp [bindConfigs] at h
  | c :: cs, io, ev, h => by
    rw [bindConfigs] at h
    rcases hp : processConfig from_bytes protocol_new device iface_num alt c
      with ⟨r, ev2⟩
    rw [hp] at h
    match r with
    | some r2 =>
      simp at h
      exact processConfig_ok_iface from_bytes protocol_new device iface_num alt
        c io ev2 (by rw [hp, h.1])
    | none =>
      simp at h
      exact bindConfigs_ok_iface from_bytes protocol_new device iface_num alt
        cs io _ (by rw [Prod.mk.injEq]; exact ⟨h.1, rfl⟩)

/-- The loop iteration reads the device only through its collaborator-call
fields, so replacing the configuration list leaves it unchanged. -/
theorem processConfig_configurations_irrel
    (from_bytes : List Nat → Option (Except Nat FunctionalDescriptor))
    (protocol_new : List Char → Nat → Except Error DfuProtocol)
    (device : Device) (cs : List Configuration) (iface_num alt : Nat)
    (config : Configuration) :
    processConfig from_bytes protocol_new { device with configurations := cs }
        iface_num alt config =
      processConfig from_bytes protocol_new device iface_num alt config := rfl

/-- The configuration loop likewise does not read the configuration list of
the device value it carries. -/
theorem bindConfigs_configurations_irrel
    (from_bytes : List Nat → Option (Except Nat FunctionalDescriptor))
    (protocol_new : List Char → Nat → Except Error DfuProtocol)
    (device : Device) (cs : List Configuration) (iface_num alt : Nat) :
    ∀ configs : List Configuration,
      bindConfigs from_bytes protocol_new { device with configurations := cs }
          iface_num alt configs =
        bindConfigs from_bytes protocol_new device iface_num alt configs
  | [] => rfl
  | c :: rest => by
    rw [bindConfigs, bindConfigs,
      processConfig_configurations_irrel from_bytes protocol_new device cs,
      bindConfigs_configurations_irrel from_bytes protocol_new device cs
        iface_num alt rest]

/-! ### Witness fixtures -/

/-- A trivial device value used by witnesses. -/
def device0 : Device :=
  { configurations := [],
    claim_result := fun _ => Except.ok (),
    set_alt_result := fun _ _ => Except.ok (),
    string_descriptor := fun _ => Except.error Error.missingLanguage }

/-- A trivial transfer world used by witnesses: IN transfers report the
buffer length, OUT transfers fail with transfer-error code 2. -/
def world0 : TransferWorld :=
  { control_in_blocking := fun _ blen _ => Except.ok blen,
    control_out_blocking := fun _ _ _ => Except.error 2 }

/-- A concrete adapter value used by witnesses. -/
def self0 : DfuNusb :=
  { iface_number := 7, protocol := ⟨1⟩, timeout := 3000,
    functional_descriptor := ⟨272⟩ }

/-! ### C1 -/

set_option maxRecDepth 4096 in
/-- C1: for every 8-bit request-type value the decoder produces exactly the
(transfer-class, recipient) pair given by the bit mapping of the spec - the
transfer class from bits 5-6 (0 standard, 1 class, any other value vendor),
the recipient from bits 0-1 (0 device, 1 interface, 2 endpoint, any other
value other).  The mapping is total over all 256 inputs with no error path,
and as a Lean function it is pure: the same input always gives the same
output. -/
theorem explode_request_type_total_map :
    ∀ rt : Fin 256,
      explode_request_type rt.val =
        ((if rt.val / 32 % 4 = 0 then ControlType.standard
          else if rt.val / 32 % 4 = 1 then ControlType.class_
          else ControlType.vendor),
         (if rt.val % 4 = 0 then Recipient.device
          else if rt.val % 4 = 1 then Recipient.interface
          else if rt.val % 4 = 2 then Recipient.endpoint
          else Recipient.other)) := by decide

/-! ### C2 -/

/-- C2: the locator scans consecutive 9-byte windows; with every window
before a given window unmatched by the parser: if that window is a valid
functional descriptor the locator returns it (the first such descriptor),
and if it is a candidate failing structural validation the locator surfaces
the structural-parse error immediately (never a not-found result and never a
later window).  The locator returns not-found exactly when no window of the
stream matches the descriptor type at all. -/
theorem find_functional_descriptor_first_window
    (from_bytes : List Nat → Option (Except Nat FunctionalDescriptor))
    (device : Device) (config : Configuration) (timeout : Nat) :
    (DfuNusb.find_functional_descriptor from_bytes device config timeout =
        none ↔
      ∀ w ∈ chunks9 config.descriptor_bytes, from_bytes w = none) ∧
    (∀ pre w post, chunks9 config.descriptor_bytes = pre ++ w :: post →
      (∀ v ∈ pre, from_bytes v = none) →
      ((∀ d, from_bytes w = some (Except.ok d) →
         DfuNusb.find_functional_descriptor from_bytes device config timeout =
           some (Except.ok d)) ∧
       (∀ e, from_bytes w = some (Except.error e) →
         DfuNusb.find_functional_descriptor from_bytes device config timeout =
           some (Except.error (Error.functionalDescriptor e))))) := by
  constructor
  · exact findLoop_eq_none_iff from_bytes (chunks9 config.descriptor_bytes)
  · intro pre w post hsplit hpre
    constructor
    · intro d hd
      unfold DfuNusb.find_functional_descriptor
      rw [hsplit, findLoop_append_skip from_bytes pre hpre]
      simp [findLoop, hd, Except.mapError]
    · intro e he
      unfold DfuNusb.find_functional_descriptor
      rw [hsplit, findLoop_append_skip from_bytes pre hpre]
      simp [findLoop, he, Except.mapError]

/-- C2 witness: on a concrete one-window stream holding a valid functional
descriptor, the locator returns that descriptor. -/
theorem find_functional_descriptor_first_window_witness :
    DfuNusb.find_functional_descriptor fdFromBytes device0
        ⟨[], [9, 33, 0, 0, 0, 0, 0, 16, 1]⟩ 3000 = some (Except.ok ⟨272⟩) := by
  have h := (find_functional_descriptor_first_window fdFromBytes device0
      ⟨[], [9, 33, 0, 0, 0, 0, 0, 16, 1]⟩ 3000).2
      [] [9, 33, 0, 0, 0, 0, 0, 16, 1] [] rfl (by simp)
  exact h.1 ⟨272⟩ rfl

/-! ### C7 -/

/-- C7: when the stream length is not a multiple of 9, the scan covers
exactly the bytes of the stream (the windows concatenate back to it and no
window exceeds 9 bytes, so nothing past the end is read), the final window
is the one holding the remaining length-mod-9 bytes, and a window shorter
than the full 9-byte layout is never matched as a valid functional
descriptor by the parser. -/
theorem locator_short_window_safe (config : Configuration)
    (h : config.descriptor_bytes.length % 9 ≠ 0) :
    (chunks9 config.descriptor_bytes).flatten = config.descriptor_bytes ∧
    (∀ w ∈ chunks9 config.descriptor_bytes, w.length ≤ 9) ∧
    ((chunks9 config.descriptor_bytes).getLast?).map (fun w => w.length) =
      some (config.descriptor_bytes.length % 9) ∧
    (∀ w ∈ chunks9 config.descriptor_bytes, w.length < 9 →
      ∀ d, fdFromBytes w ≠ some (Except.ok d)) := by
  exact ⟨chunks9_flatten _, fun w hw => chunks9_mem_length _ w hw,
    chunks9_last_of_mod _ h, fun w _ hwlen d => fdFromBytes_short_not_ok w hwlen d⟩

/-- C7 witness: a 3-byte stream yields a single 3-byte final window. -/
theorem locator_short_window_safe_witness :
    (chunks9 ([9, 33, 0] : List Nat)).flatten = [9, 33, 0] ∧
    ((chunks9 ([9, 33, 0] : List Nat)).getLast?).map (fun w => w.length) =
      some 3 := by
  have h := locator_short_window_safe ⟨[], [9, 33, 0]⟩ (by decide)
  exact ⟨h.1, h.2.2.1⟩

/-! ### C4 -/

/-- C4 counterexample: a listing holding exactly one device, which matches
the requested (vendor, product) pair but fails to open at the OS level (io
error code 7).  `open_device` returns the converted `Error.io 7`, not
`Error.couldNotOpenDevice` as the claim states. -/
theorem open_device_os_error_counterexample :
    DfuNusb.open_device
        (Except.ok [{ vendor_id := 1, product_id := 2,
                      open_result := Except.error 7 }]) 1 2 =
      Except.error (Error.io 7) ∧
    Error.io 7 ≠ Error.couldNotOpenDevice :=
  ⟨rfl, by decide⟩

/-- C4 amended: `open_device` enumerates the listed devices and takes the
first whose vendor and product ids both match; it fails with
`CouldNotOpenDevice` when no attached device matches, while an OS-level
failure - of the enumeration itself or of opening the matched device - is
returned as the converted `Io` error, not as `CouldNotOpenDevice`. -/
theorem open_device_amended (list_devices : Except Nat (List DeviceInfo))
    (vid pid : Nat) :
    (∀ devices, list_devices = Except.ok devices →
      ((∀ d ∈ devices, ¬(d.vendor_id = vid ∧ d.product_id = pid)) →
        DfuNusb.open_device list_devices vid pid =
          Except.error Error.couldNotOpenDevice) ∧
      (∀ d, devices.find?
          (fun x => x.vendor_id == vid && x.product_id == pid) = some d →
        (∀ e, d.open_result = Except.error e →
          DfuNusb.open_device list_devices vid pid =
            Except.error (Error.io e)) ∧
        (∀ dev, d.open_result = Except.ok dev →
          DfuNusb.open_device list_devices vid pid = Except.ok dev))) ∧
    (∀ e, list_devices = Except.error e →
      DfuNusb.open_device list_devices vid pid = Except.error (Error.io e)) := by
  constructor
  · intro devices hlist
    subst hlist
    constructor
    · intro hnone
      have hfind : devices.find?
          (fun x => x.vendor_id == vid && x.product_id == pid) = none := by
        rw [List.find?_eq_none]
        intro x hx
        simp only [Bool.and_eq_true, beq_iff_eq]
        exact hnone x hx
      simp [DfuNusb.open_device, hfind]
    · intro d hfind
      constructor
      · intro e he
        simp [DfuNusb.open_device, hfind, he]
      · intro dev hdev
        simp [DfuNusb.open_device, hfind, hdev]
  · intro e hlist
    subst hlist
    rfl

/-- C4 witness: the no-match branch and the successful-open branch of the
amended claim at concrete inputs. -/
theorem open_device_amended_witness :
    DfuNusb.open_device
        (Except.ok [{ vendor_id := 3, product_id := 4,
                      open_result := Except.ok device0 }]) 1 2 =
      Except.error Error.couldNotOpenDevice ∧
    DfuNusb.open_device
        (Except.ok [{ vendor_id := 1, product_id := 2,
                      open_result := Except.ok device0 }]) 1 2 =
      Except.ok device0 := by
  constructor
  · exact ((open_device_amended
        (Except.ok [{ vendor_id := 3, product_id := 4,
                      open_result := Except.ok device0 }]) 1 2).1 _ rfl).1
      (by intro d hd
          rw [List.mem_singleton] at hd
          subst hd
          simp)
  · exact (((open_device_amended
        (Except.ok [{ vendor_id := 1, product_id := 2,
                      open_result := Except.ok device0 }]) 1 2).1 _ rfl).2
      _ rfl).2 device0 rfl

/-! ### C6 -/

/-- C6: both control primitives issue their transfer with the index field of
the control block equal to the interface number captured at bind time (and a
successful bind always captures the requested interface number); the
request-type byte determines only the decoded (control-type, recipient) pair
of the issued block, never its index; on success the raw transfer length is
returned, and a transfer error is propagated wrapped in `Error.transfer`,
not swallowed. -/
theorem control_transfers_target_bound_interface :
    (∀ (world : TransferWorld) (self : DfuNusb) (rt req val blen : Nat),
      (DfuNusb.read_control world self rt req val blen).2 =
        { control_type := (explode_request_type rt).1,
          recipient := (explode_request_type rt).2,
          request := req, value := val, index := self.iface_number } ∧
      (∀ n, world.control_in_blocking
          (DfuNusb.read_control world self rt req val blen).2 blen
            self.timeout = Except.ok n →
        (DfuNusb.read_control world self rt req val blen).1 = Except.ok n) ∧
      (∀ e, world.control_in_blocking
          (DfuNusb.read_control world self rt req val blen).2 blen
            self.timeout = Except.error e →
        (DfuNusb.read_control world self rt req val blen).1 =
          Except.error (Error.transfer e))) ∧
    (∀ (world : TransferWorld) (self : DfuNusb) (rt req val : Nat)
        (buffer : List Nat),
      (DfuNusb.write_control world self rt req val buffer).2 =
        { control_type := (explode_request_type rt).1,
          recipient := (explode_request_type rt).2,
          request := req, value := val, index := self.iface_number } ∧
      (∀ n, world.control_out_blocking
          (DfuNusb.write_control world self rt req val buffer).2 buffer
            self.timeout = Except.ok n →
        (DfuNusb.write_control world self rt req val buffer).1 =
          Except.ok n) ∧
      (∀ e, world.control_out_blocking
          (DfuNusb.write_control world self rt req val buffer).2 buffer
            self.timeout = Except.error e →
        (DfuNusb.write_control world self rt req val buffer).1 =
          Except.error (Error.transfer e))) ∧
    (∀ from_bytes protocol_new (device : Device) (iface_num alt : Nat)
        (io : DfuNusb) (ev : List Event),
      DfuNusb.from_usb_device from_bytes protocol_new device iface_num alt =
        (Except.ok io, ev) →
      io.iface_number = iface_num) := by
  refine ⟨?_, ?_, ?_⟩
  · intro world self rt req val blen
    refine ⟨rfl, ?_, ?_⟩
    · intro n h
      have hred : (DfuNusb.read_control world self rt req val blen).1 =
          match world.control_in_blocking
            (DfuNusb.read_control world self rt req val blen).2 blen
            self.timeout with
          | Except.ok n => Except.ok n
          | Except.error e => Except.error (Error.transfer e) := rfl
      rw [hred, h]
    · intro e h
      have hred : (DfuNusb.read_control world self rt req val blen).1 =
          match world.control_in_blocking
            (DfuNusb.read_control world self rt req val blen).2 blen
            self.timeout with
          | Except.ok n => Except.ok n
          | Except.error e => Except.error (Error.transfer e) := rfl
      rw [hred, h]
  · intro world self rt req val buffer
    refine ⟨rfl, ?_, ?_⟩
    · intro n h
      have hred : (DfuNusb.write_control world self rt req val buffer).1 =
          match world.control_out_blocking
            (DfuNusb.write_control world self rt req val buffer).2 buffer
            self.timeout with
          | Except.ok n => Except.ok n
          | Except.error e => Except.error (Error.transfer e) := rfl
      rw [hred, h]
    · intro e h
      have hred : (DfuNusb.write_control world self rt req val buffer).1 =
          match world.control_out_blocking
            (DfuNusb.write_control world self rt req val buffer).2 buffer
            self.timeout with
          | Except.ok n => Except.ok n
          | Except.error e => Except.error (Error.transfer e) := rfl
      rw [hred, h]
  · intro from_bytes protocol_new device iface_num alt io ev h
    unfold DfuNusb.from_usb_device at h
    cases hc : device.claim_result iface_num with
    | error e => rw [hc] at h; simp at h
    | ok u =>
      rw [hc] at h
      cases ha : device.set_alt_result iface_num alt with
      | error e => rw [ha] at h; simp at h
      | ok u2 =>
        rw [ha] at h
        rcases hbc : bindConfigs from_bytes protocol_new device iface_num alt
          device.configurations with ⟨r, ev2⟩
        rw [hbc] at h
        cases r with
        | none => simp at h
        | some r2 =>
          cases r2 with
          | error e => simp at h
          | ok io2 =>
            simp at h
            rw [← h.1]
            exact bindConfigs_ok_iface from_bytes protocol_new device iface_num
              alt device.configurations io2 ev2 hbc

/-- C6 witness: concrete transfers on a bound adapter for interface 7. -/
theorem control_transfers_target_bound_interface_witness :
    (DfuNusb.read_control world0 self0 33 1 2 5).2.index = 7 ∧
    (DfuNusb.read_control world0 self0 33 1 2 5).1 = Except.ok 5 ∧
    (DfuNusb.write_control world0 self0 33 1 2 [0, 1]).1 =
      Except.error (Error.transfer 2) := by
  refine ⟨?_, ?_, ?_⟩
  · rw [(control_transfers_target_bound_interface.1 world0 self0 33 1 2 5).1]
    rfl
  · exact (control_transfers_target_bound_interface.1
      world0 self0 33 1 2 5).2.1 5 rfl
  · exact (control_transfers_target_bound_interface.2.1
      world0 self0 33 1 2 [0, 1]).2.2 2 rfl

/-! ### Unfolding helpers for the binder -/

/-- With claim and alternate-setting selection succeeding, a configuration
loop ending in success determines the binder result. -/
theorem from_usb_device_of_bind_ok
    (from_bytes : List Nat → Option (Except Nat FunctionalDescriptor))
    (protocol_new : List Char → Nat → Except Error DfuProtocol)
    (device : Device) (iface_num alt : Nat)
    (hclaim : device.claim_result iface_num = Except.ok ())
    (halt : device.set_alt_result iface_num alt = Except.ok ())
    (io : DfuNusb) (ev : List Event)
    (hbc : bindConfigs from_bytes protocol_new device iface_num alt
      device.configurations = (some (Except.ok io), ev)) :
    DfuNusb.from_usb_device from_bytes protocol_new device iface_num alt =
      (Except.ok io, Event.claim iface_num :: Event.setAlt alt :: ev) := by
  unfold DfuNusb.from_usb_device
  rw [hclaim, halt, hbc]

/-- With claim and alternate-setting selection succeeding, a configuration
loop ending in an error determines the binder result; the dropped interface
handle releases its claim last. -/
theorem from_usb_device_of_bind_err
    (from_bytes : List Nat → Option (Except Nat FunctionalDescriptor))
    (protocol_new : List Char → Nat → Except Error DfuProtocol)
    (device : Device) (iface_num alt : Nat)
    (hclaim : device.claim_result iface_num = Except.ok ())
    (halt : device.set_alt_result iface_num alt = Except.ok ())
    (e : Error) (ev : List Event)
    (hbc : bindConfigs from_bytes protocol_new device iface_num alt
      device.configurations = (some (Except.error e), ev)) :
    DfuNusb.from_usb_device from_bytes protocol_new device iface_num alt =
      (Except.error e, Event.claim iface_num :: Event.setAlt alt ::
        (ev ++ [Event.release iface_num])) := by
  unfold DfuNusb.from_usb_device
  rw [hclaim, halt, hbc]

/-- With claim and alternate-setting selection succeeding, an exhausted
configuration loop makes the binder fail with `NoDfuCapableDeviceFound`. -/
theorem from_usb_device_of_bind_none
    (from_bytes : List Nat → Option (Except Nat FunctionalDescriptor))
    (protocol_new : List Char → Nat → Except Error DfuProtocol)
    (device : Device) (iface_num alt : Nat)
    (hclaim : device.claim_result iface_num = Except.ok ())
    (halt : device.set_alt_result iface_num alt = Except.ok ())
    (ev : List Event)
    (hbc : bindConfigs from_bytes protocol_new device iface_num alt
      device.configurations = (none, ev)) :
    DfuNusb.from_usb_device from_bytes protocol_new device iface_num alt =
      (Except.error Error.noDfuCapableDeviceFound,
       Event.claim iface_num :: Event.setAlt alt ::
        (ev ++ [Event.release iface_num])) := by
  unfold DfuNusb.from_usb_device
  rw [hclaim, halt, hbc]

/-! ### C5 -/

/-- C5: on the first configuration in which the locator yields a functional
descriptor, a requested interface number absent from the interface list of
that configuration makes binding fail with `InvalidInterface`; a present
interface whose settings lack the requested alternate setting makes binding
fail with `InvalidAlt`. -/
theorem from_usb_device_lookup_errors
    (from_bytes : List Nat → Option (Except Nat FunctionalDescriptor))
    (protocol_new : List Char → Nat → Except Error DfuProtocol)
    (device : Device) (iface_num alt : Nat)
    (pre : List Configuration) (c : Configuration) (rest : List Configuration)
    (fd : FunctionalDescriptor)
    (hclaim : device.claim_result iface_num = Except.ok ())
    (halt : device.set_alt_result iface_num alt = Except.ok ())
    (hconfigs : device.configurations = pre ++ c :: rest)
    (hpre : ∀ c2 ∈ pre,
      DfuNusb.find_functional_descriptor from_bytes device c2 3000 = none)
    (hc : DfuNusb.find_functional_descriptor from_bytes device c 3000 =
      some (Except.ok fd)) :
    ((∀ ig ∈ c.interfaces, ig.interface_number ≠ iface_num) →
      (DfuNusb.from_usb_device from_bytes protocol_new device iface_num
        alt).1 = Except.error Error.invalidInterface) ∧
    (∀ ig, c.interfaces.find?
        (fun x => x.interface_number == iface_num) = some ig →
      (∀ aset ∈ ig.alt_settings, aset.alternate_setting ≠ alt) →
      (DfuNusb.from_usb_device from_bytes protocol_new device iface_num
        alt).1 = Except.error Error.invalidAlt) := by
  have hskip : ∀ c2 ∈ pre,
      processConfig from_bytes protocol_new device iface_num alt c2 =
        (none, []) :=
    fun c2 h2 => processConfig_skip from_bytes protocol_new device iface_num
      alt c2 (Or.inl (hpre c2 h2))
  constructor
  · intro habs
    have hfind : c.interfaces.find?
        (fun x => x.interface_number == iface_num) = none := by
      rw [List.find?_eq_none]
      intro x hx
      simp only [beq_iff_eq]
      exact habs x hx
    have hpc : processConfig from_bytes protocol_new device iface_num alt c =
        (some (Except.error Error.invalidInterface), []) := by
      simp [processConfig, hc, hfind]
    have hbc : bindConfigs from_bytes protocol_new device iface_num alt
        device.configurations =
        (some (Except.error Error.invalidInterface), []) := by
      rw [hconfigs, bindConfigs_append_skip from_bytes protocol_new device
        iface_num alt pre hskip (c :: rest)]
      simp [bindConfigs, hpc]
    rw [from_usb_device_of_bind_err from_bytes protocol_new device iface_num
      alt hclaim halt Error.invalidInterface [] hbc]
  · intro ig hig habs
    have hfind : ig.alt_settings.find?
        (fun x => x.alternate_setting == alt) = none := by
      rw [List.find?_eq_none]
      intro x hx
      simp only [beq_iff_eq]
      exact habs x hx
    have hpc : processConfig from_bytes protocol_new device iface_num alt c =
        (some (Except.error Error.invalidAlt), []) := by
      simp [processConfig, hc, hig, hfind]
    have hbc : bindConfigs from_bytes protocol_new device iface_num alt
        device.configurations =
        (some (Except.error Error.invalidAlt), []) := by
      rw [hconfigs, bindConfigs_append_skip from_bytes protocol_new device
        iface_num alt pre hskip (c :: rest)]
      simp [bindConfigs, hpc]
    rw [from_usb_device_of_bind_err from_bytes protocol_new device iface_num
      alt hclaim halt Error.invalidAlt [] hbc]

/-! ### C9 -/

/-- C9: on every failing exit of the binder in which the interface claim had
succeeded, the very last resource event is the release of the claimed
interface: the claim is given up before the error is returned, never
leaked. -/
theorem from_usb_device_release_on_error
    (from_bytes : List Nat → Option (Except Nat FunctionalDescriptor))
    (protocol_new : List Char → Nat → Except Error DfuProtocol)
    (device : Device) (iface_num alt : Nat) (e : Error)
    (herr : (DfuNusb.from_usb_device from_bytes protocol_new device iface_num
      alt).1 = Except.error e)
    (hclaimed : Event.claim iface_num ∈
      (DfuNusb.from_usb_device from_bytes protocol_new device iface_num
        alt).2) :
    ((DfuNusb.from_usb_device from_bytes protocol_new device iface_num
      alt).2).getLast? = some (Event.release iface_num) := by
  unfold DfuNusb.from_usb_device at herr hclaimed ⊢
  cases hc : device.claim_result iface_num with
  | error e2 =>
    rw [hc] at hclaimed
    simp at hclaimed
  | ok u =>
    cases ha : device.set_alt_result iface_num alt with
    | error e2 =>
      rfl
    | ok u2 =>
      rcases hbc : bindConfigs from_bytes protocol_new device iface_num alt
        device.configurations with ⟨r, ev⟩
      rw [hc, ha] at herr
      cases r with
      | none =>
        show ((Event.claim iface_num :: Event.setAlt alt :: ev) ++
          [Event.release iface_num]).getLast? = some (Event.release iface_num)
        exact List.getLast?_concat _
      | some r2 =>
        cases r2 with
        | error e3 =>
          show ((Event.claim iface_num :: Event.setAlt alt :: ev) ++
            [Event.release iface_num]).getLast? =
              some (Event.release iface_num)
          exact List.getLast?_concat _
        | ok io =>
          rw [hbc] at herr
          simp at herr

/-- C9 witness: a device with no configurations binds to nothing; the claim
succeeded, the binder fails, and the last event is the release. -/
theorem from_usb_device_release_on_error_witness :
    ((DfuNusb.from_usb_device fdFromBytes
      (fun _ _ => Except.error (Error.dfu 0)) device0 0 0).2).getLast? =
      some (Event.release 0) := by
  exact from_usb_device_release_on_error fdFromBytes
    (fun _ _ => Except.error (Error.dfu 0)) device0 0 0
    Error.noDfuCapableDeviceFound rfl (by decide)

/-! ### C10 -/

/-- C10: once the interface claim and the alternate-setting call succeed, the
binder has set the alternate setting immediately after claiming and before
inspecting any configuration - the trace starts with exactly those two
events - and no later event changes the alternate setting again: on every
exit, failing ones included, the mutation has been performed and is not
undone. -/
theorem from_usb_device_alt_setting_first
    (from_bytes : List Nat → Option (Except Nat FunctionalDescriptor))
    (protocol_new : List Char → Nat → Except Error DfuProtocol)
    (device : Device) (iface_num alt : Nat)
    (hclaim : device.claim_result iface_num = Except.ok ())
    (halt : device.set_alt_result iface_num alt = Except.ok ()) :
    ((DfuNusb.from_usb_device from_bytes protocol_new device iface_num
        alt).2).take 2 = [Event.claim iface_num, Event.setAlt alt] ∧
    (∀ a, Event.setAlt a ∉
      ((DfuNusb.from_usb_device from_bytes protocol_new device iface_num
        alt).2).drop 2) := by
  unfold DfuNusb.from_usb_device
  rw [hclaim, halt]
  rcases hbc : bindConfigs from_bytes protocol_new device iface_num alt
    device.configurations with ⟨r, ev⟩
  have hev : ∀ x ∈ ev, ∃ i lg t, x = Event.getString i lg t := by
    intro x hx
    exact bindConfigs_events from_bytes protocol_new device iface_num alt
      device.configurations x (by rw [hbc]; exact hx)
  cases r with
  | none =>
    refine ⟨rfl, ?_⟩
    intro a hmem
    simp only [List.drop] at hmem
    rcases List.mem_append.1 hmem with h | h
    · obtain ⟨i, lg, t, hx⟩ := hev _ h
      cases hx
    · simp at h
  | some r2 =>
    cases r2 with
    | error e3 =>
      refine ⟨rfl, ?_⟩
      intro a hmem
      simp only [List.drop] at hmem
      rcases List.mem_append.1 hmem with h | h
      · obtain ⟨i, lg, t, hx⟩ := hev _ h
        cases hx
      · simp at h
    | ok io =>
      refine ⟨rfl, ?_⟩
      intro a hmem
      simp only [List.drop] at hmem
      obtain ⟨i, lg, t, hx⟩ := hev _ hmem
      cases hx

/-- C10 witness: on a device with no configurations the failing bind has
performed the alternate-setting change first and never undoes it. -/
theorem from_usb_device_alt_setting_first_witness :
    ((DfuNusb.from_usb_device fdFromBytes
        (fun _ _ => Except.error (Error.dfu 0)) device0 0 5).2).take 2 =
      [Event.claim 0, Event.setAlt 5] ∧
    Event.setAlt 5 ∉
      ((DfuNusb.from_usb_device fdFromBytes
        (fun _ _ => Except.error (Error.dfu 0)) device0 0 5).2).drop 2 := by
  have h := from_usb_device_alt_setting_first fdFromBytes
    (fun _ _ => Except.error (Error.dfu 0)) device0 0 5 rfl rfl
  exact ⟨h.1, h.2 5⟩

/-! ### C8 -/

/-- C8: when the matched alt-setting of the first descriptor-yielding
configuration advertises a string index, the binder retrieves that string
with language id 0 and a 1000 ms (1 second) timeout; the protocol variant is
constructed from exactly the retrieved string with its trailing NUL
characters trimmed, together with the version field of the functional
descriptor; a construction failure (unrecognised mode string or unsupported
version) fails the bind with that error, as does a failed retrieval. -/
theorem from_usb_device_string_and_protocol
    (from_bytes : List Nat → Option (Except Nat FunctionalDescriptor))
    (protocol_new : List Char → Nat → Except Error DfuProtocol)
    (device : Device) (iface_num alt : Nat)
    (pre : List Configuration) (c : Configuration) (rest : List Configuration)
    (fd : FunctionalDescriptor) (ig : InterfaceGroup) (aset : AltSetting)
    (ix : Nat)
    (hclaim : device.claim_result iface_num = Except.ok ())
    (halt : device.set_alt_result iface_num alt = Except.ok ())
    (hconfigs : device.configurations = pre ++ c :: rest)
    (hpre : ∀ c2 ∈ pre,
      DfuNusb.find_functional_descriptor from_bytes device c2 3000 = none)
    (hc : DfuNusb.find_functional_descriptor from_bytes device c 3000 =
      some (Except.ok fd))
    (hig : c.interfaces.find?
      (fun x => x.interface_number == iface_num) = some ig)
    (haset : ig.alt_settings.find?
      (fun x => x.alternate_setting == alt) = some aset)
    (hix : aset.string_index = some ix) :
    Event.getString ix 0 1000 ∈
      (DfuNusb.from_usb_device from_bytes protocol_new device iface_num
        alt).2 ∧
    (∀ s, device.string_descriptor ix = Except.ok s →
      (∀ p, protocol_new (trimEndNulls s) fd.dfu_version = Except.ok p →
        (DfuNusb.from_usb_device from_bytes protocol_new device iface_num
          alt).1 =
          Except.ok { iface_number := iface_num, protocol := p,
                      timeout := 3000, functional_descriptor := fd }) ∧
      (∀ e, protocol_new (trimEndNulls s) fd.dfu_version = Except.error e →
        (DfuNusb.from_usb_device from_bytes protocol_new device iface_num
          alt).1 = Except.error e)) ∧
    (∀ e, device.string_descriptor ix = Except.error e →
      (DfuNusb.from_usb_device from_bytes protocol_new device iface_num
        alt).1 = Except.error e) := by
  have hskip : ∀ c2 ∈ pre,
      processConfig from_bytes protocol_new device iface_num alt c2 =
        (none, []) :=
    fun c2 h2 => processConfig_skip from_bytes protocol_new device iface_num
      alt c2 (Or.inl (hpre c2 h2))
  rcases hsd : device.string_descriptor ix with e0 | s0
  · -- string retrieval fails with error e0
    have hpc : processConfig from_bytes protocol_new device iface_num alt c =
        (some (Except.error e0), [Event.getString ix 0 1000]) := by
      simp [processConfig, hc, hig, haset, hix, hsd]
    have hbc : bindConfigs from_bytes protocol_new device iface_num alt
        device.configurations =
        (some (Except.error e0), [Event.getString ix 0 1000]) := by
      rw [hconfigs, bindConfigs_append_skip from_bytes protocol_new device
        iface_num alt pre hskip (c :: rest)]
      simp [bindConfigs, hpc]
    have hfu := from_usb_device_of_bind_err from_bytes protocol_new device
      iface_num alt hclaim halt e0 [Event.getString ix 0 1000] hbc
    refine ⟨?_, ?_, ?_⟩
    · rw [hfu]
      simp
    · intro s hs2
      simp at hs2
    · intro e he
      simp at he
      subst he
      rw [hfu]
  · -- string retrieved as s0
    rcases hp : protocol_new (trimEndNulls s0) fd.dfu_version with e0 | p0
    · -- protocol construction fails with e0
      have hpc : processConfig from_bytes protocol_new device iface_num alt
          c = (some (Except.error e0), [Event.getString ix 0 1000]) := by
        simp [processConfig, hc, hig, haset, hix, hsd, hp]
      have hbc : bindConfigs from_bytes protocol_new device iface_num alt
          device.configurations =
          (some (Except.error e0), [Event.getString ix 0 1000]) := by
        rw [hconfigs, bindConfigs_append_skip from_bytes protocol_new device
          iface_num alt pre hskip (c :: rest)]
        simp [bindConfigs, hpc]
      have hfu := from_usb_device_of_bind_err from_bytes protocol_new device
        iface_num alt hclaim halt e0 [Event.getString ix 0 1000] hbc
      refine ⟨?_, ?_, ?_⟩
      · rw [hfu]
        simp
      · intro s hs2
        simp at hs2
        subst hs2
        constructor
        · intro p hp2
          rw [hp] at hp2
          simp at hp2
        · intro e he2
          rw [hp] at he2
          simp at he2
          subst he2
          rw [hfu]
      · intro e he
        simp at he
    · -- protocol construction succeeds with p0
      have hpc : processConfig from_bytes protocol_new device iface_num alt
          c = (some (Except.ok
              { iface_number := iface_num, protocol := p0,
                timeout := 3000, functional_descriptor := fd }),
            [Event.getString ix 0 1000]) := by
        simp [processConfig, hc, hig, haset, hix, hsd, hp]
      have hbc : bindConfigs from_bytes protocol_new device iface_num alt
          device.configurations =
          (some (Except.ok
              { iface_number := iface_num, protocol := p0,
                timeout := 3000, functional_descriptor := fd }),
            [Event.getString ix 0 1000]) := by
        rw [hconfigs, bindConfigs_append_skip from_bytes protocol_new device
          iface_num alt pre hskip (c :: rest)]
        simp [bindConfigs, hpc]
      have hfu := from_usb_device_of_bind_ok from_bytes protocol_new device
        iface_num alt hclaim halt _ [Event.getString ix 0 1000] hbc
      refine ⟨?_, ?_, ?_⟩
      · rw [hfu]
        simp
      · intro s hs2
        simp at hs2
        subst hs2
        constructor
        · intro p hp2
          rw [hp] at hp2
          simp at hp2
          subst hp2
          rw [hfu]
        · intro e he2
          rw [hp] at he2
          simp at he2
      · intro e he
        simp at he

/-! ### C3 -/

/-- C3: configurations in which the locator finds no functional descriptor
are skipped without error, and a configuration whose matched alt-setting has
no string index makes binding continue exactly as if only the remaining
configurations existed; when only the third configuration holds a valid
functional descriptor with a valid string for the requested alt-setting,
binding succeeds and the protocol variant is built from that third
configuration's descriptor version; when no configuration yields a usable
descriptor plus string combination, binding fails with
`NoDfuCapableDeviceFound`. -/
theorem from_usb_device_scan_behaviour
    (from_bytes : List Nat → Option (Except Nat FunctionalDescriptor))
    (protocol_new : List Char → Nat → Except Error DfuProtocol)
    (iface_num alt : Nat) :
    (∀ (device : Device) (c1 c2 c3 : Configuration)
        (rest : List Configuration) (fd : FunctionalDescriptor)
        (ig : InterfaceGroup) (aset : AltSetting) (ix : Nat) (s : List Char)
        (p : DfuProtocol),
      device.claim_result iface_num = Except.ok () →
      device.set_alt_result iface_num alt = Except.ok () →
      device.configurations = c1 :: c2 :: c3 :: rest →
      DfuNusb.find_functional_descriptor from_bytes device c1 3000 = none →
      DfuNusb.find_functional_descriptor from_bytes device c2 3000 = none →
      DfuNusb.find_functional_descriptor from_bytes device c3 3000 =
        some (Except.ok fd) →
      c3.interfaces.find? (fun x => x.interface_number == iface_num) =
        some ig →
      ig.alt_settings.find? (fun x => x.alternate_setting == alt) =
        some aset →
      aset.string_index = some ix →
      device.string_descriptor ix = Except.ok s →
      protocol_new (trimEndNulls s) fd.dfu_version = Except.ok p →
      (DfuNusb.from_usb_device from_bytes protocol_new device iface_num
        alt).1 =
        Except.ok { iface_number := iface_num, protocol := p,
                    timeout := 3000, functional_descriptor := fd }) ∧
    (∀ (device : Device) (c : Configuration) (rest : List Configuration)
        (fd : FunctionalDescriptor) (ig : InterfaceGroup) (aset : AltSetting),
      device.configurations = c :: rest →
      DfuNusb.find_functional_descriptor from_bytes device c 3000 =
        some (Except.ok fd) →
      c.interfaces.find? (fun x => x.interface_number == iface_num) =
        some ig →
      ig.alt_settings.find? (fun x => x.alternate_setting == alt) =
        some aset →
      aset.string_index = none →
      (DfuNusb.from_usb_device from_bytes protocol_new device iface_num
        alt).1 =
        (DfuNusb.from_usb_device from_bytes protocol_new
          { device with configurations := rest } iface_num alt).1) ∧
    (∀ device : Device,
      device.claim_result iface_num = Except.ok () →
      device.set_alt_result iface_num alt = Except.ok () →
      (∀ c ∈ device.configurations,
        DfuNusb.find_functional_descriptor from_bytes device c 3000 = none ∨
        ∃ fd ig aset,
          DfuNusb.find_functional_descriptor from_bytes device c 3000 =
            some (Except.ok fd) ∧
          c.interfaces.find? (fun x => x.interface_number == iface_num) =
            some ig ∧
          ig.alt_settings.find? (fun x => x.alternate_setting == alt) =
            some aset ∧
          aset.string_index = none) →
      (DfuNusb.from_usb_device from_bytes protocol_new device iface_num
        alt).1 = Except.error Error.noDfuCapableDeviceFound) := by
  refine ⟨?_, ?_, ?_⟩
  · intro device c1 c2 c3 rest fd ig aset ix s p hclaim halt hcfg h1 h2 h3
      hig haset hix hsd hp
    have hskip : ∀ cc ∈ [c1, c2],
        processConfig from_bytes protocol_new device iface_num alt cc =
          (none, []) := by
      intro cc hcc
      simp only [List.mem_cons, List.mem_singleton] at hcc
      rcases hcc with rfl | rfl | hcc
      · exact processConfig_skip from_bytes protocol_new device iface_num alt
          cc (Or.inl h1)
      · exact processConfig_skip from_bytes protocol_new device iface_num alt
          cc (Or.inl h2)
      · simp at hcc
    have hpc3 : processConfig from_bytes protocol_new device iface_num alt
        c3 = (some (Except.ok
            { iface_number := iface_num, protocol := p,
              timeout := 3000, functional_descriptor := fd }),
          [Event.getString ix 0 1000]) := by
      simp [processConfig, h3, hig, haset, hix, hsd, hp]
    have hbc : bindConfigs from_bytes protocol_new device iface_num alt
        device.configurations =
        (some (Except.ok
            { iface_number := iface_num, protocol := p,
              timeout := 3000, functional_descriptor := fd }),
          [Event.getString ix 0 1000]) := by
      rw [hcfg]
      have hap := bindConfigs_append_skip from_bytes protocol_new device
        iface_num alt [c1, c2] hskip (c3 :: rest)
      exact hap.trans (by simp [bindConfigs, hpc3])
    rw [from_usb_device_of_bind_ok from_bytes protocol_new device iface_num
      alt hclaim halt _ _ hbc]
  · intro device c rest fd ig aset hcfg hfd hig haset hix
    have hpc : processConfig from_bytes protocol_new device iface_num alt c =
        (none, []) :=
      processConfig_skip from_bytes protocol_new device iface_num alt c
        (Or.inr ⟨fd, ig, aset, hfd, hig, haset, hix⟩)
    have hcr : ({ device with configurations := rest } : Device).claim_result =
        device.claim_result := rfl
    have har : ({ device with configurations := rest } :
        Device).set_alt_result = device.set_alt_result := rfl
    have hcfg2 : ({ device with configurations := rest } :
        Device).configurations = rest := rfl
    unfold DfuNusb.from_usb_device
    rw [hcr, har, hcfg2, hcfg,
      bindConfigs_configurations_irrel from_bytes protocol_new device rest
        iface_num alt rest]
    cases hc : device.claim_result iface_num with
    | error e => rfl
    | ok u =>
      cases ha : device.set_alt_result iface_num alt with
      | error e => rfl
      | ok u2 =>
        have hcons : bindConfigs from_bytes protocol_new device iface_num alt
            (c :: rest) =
            bindConfigs from_bytes protocol_new device iface_num alt rest := by
          simp [bindConfigs, hpc]
        rw [hcons]
  · intro device hclaim halt hall
    have hskip : ∀ c ∈ device.configurations,
        processConfig from_bytes protocol_new device iface_num alt c =
          (none, []) :=
      fun c hc => processConfig_skip from_bytes protocol_new device iface_num
        alt c (hall c hc)
    have hbc : bindConfigs from_bytes protocol_new device iface_num alt
        device.configurations = (none, []) := by
      have h2 := bindConfigs_append_skip from_bytes protocol_new device
        iface_num alt device.configurations hskip []
      rw [List.append_nil] at h2
      exact h2
    rw [from_usb_device_of_bind_none from_bytes protocol_new device iface_num
      alt hclaim halt [] hbc]

/-! ### Fixtures for the binder witnesses -/

/-- A concrete interface group: interface 0 with a single alt-setting 0
whose string index is 4. -/
def ig0 : InterfaceGroup := ⟨0, [⟨0, some 4⟩]⟩

/-- A configuration with no interfaces and an empty descriptor stream. -/
def cfgEmpty : Configuration := ⟨[], []⟩

/-- A configuration carrying `ig0` and a valid functional descriptor window
(version 0x0110 = 272). -/
def cfg3 : Configuration := ⟨[ig0], [9, 33, 0, 0, 0, 0, 0, 16, 1]⟩

/-- A configuration carrying a valid functional descriptor window but no
interfaces at all. -/
def cfgNoIntf : Configuration := ⟨[], [9, 33, 0, 0, 0, 0, 0, 16, 1]⟩

/-- A device whose third configuration is the only usable one. -/
def device3 : Device :=
  { configurations := [cfgEmpty, cfgEmpty, cfg3],
    claim_result := fun _ => Except.ok (),
    set_alt_result := fun _ _ => Except.ok (),
    string_descriptor := fun ix =>
      if ix = 4 then Except.ok [Char.ofNat 68, Char.ofNat 70, Char.ofNat 85]
      else Except.error Error.missingLanguage }

/-- A device whose single configuration has a descriptor but no matching
interface. -/
def deviceNoIntf : Device :=
  { configurations := [cfgNoIntf],
    claim_result := fun _ => Except.ok (),
    set_alt_result := fun _ _ => Except.ok (),
    string_descriptor := fun _ => Except.error Error.missingLanguage }

/-- A concrete protocol constructor recognising exactly the string DFU at
version 272. -/
def pnew0 : List Char → Nat → Except Error DfuProtocol :=
  fun s v =>
    if s = [Char.ofNat 68, Char.ofNat 70, Char.ofNat 85] ∧ v = 272 then
      Except.ok ⟨1⟩
    else Except.error (Error.dfu 9)

/-- C3 witness: on `device3` the first two configurations are skipped and
binding succeeds with the protocol built from the third configuration's
descriptor version. -/
theorem from_usb_device_scan_behaviour_witness :
    (DfuNusb.from_usb_device fdFromBytes pnew0 device3 0 0).1 =
      Except.ok { iface_number := 0, protocol := ⟨1⟩, timeout := 3000,
                  functional_descriptor := ⟨272⟩ } := by
  exact (from_usb_device_scan_behaviour fdFromBytes pnew0 0 0).1 device3
    cfgEmpty cfgEmpty cfg3 [] ⟨272⟩ ig0 ⟨0, some 4⟩ 4
    [Char.ofNat 68, Char.ofNat 70, Char.ofNat 85] ⟨1⟩
    rfl rfl rfl rfl rfl rfl rfl rfl rfl rfl rfl

/-- C5 witness: a device whose only configuration carries a descriptor but
no interface numbered 0 makes binding fail with `InvalidInterface`. -/
theorem from_usb_device_lookup_errors_witness :
    (DfuNusb.from_usb_device fdFromBytes pnew0 deviceNoIntf 0 0).1 =
      Except.error Error.invalidInterface := by
  exact (from_usb_device_lookup_errors fdFromBytes pnew0 deviceNoIntf 0 0 []
    cfgNoIntf [] ⟨272⟩ rfl rfl rfl (by simp) rfl).1 (by simp [cfgNoIntf])

/-- C8 witness: on `device3` the bind retrieves string 4 with language 0 and
a 1000 ms timeout and builds the protocol from the trimmed string and the
descriptor version. -/
theorem from_usb_device_string_and_protocol_witness :
    Event.getString 4 0 1000 ∈
      (DfuNusb.from_usb_device fdFromBytes pnew0 device3 0 0).2 ∧
    (DfuNusb.from_usb_device fdFromBytes pnew0 device3 0 0).1 =
      Except.ok { iface_number := 0, protocol := ⟨1⟩, timeout := 3000,
                  functional_descriptor := ⟨272⟩ } := by
  have h := from_usb_device_string_and_protocol fdFromBytes pnew0 device3 0 0
    [cfgEmpty, cfgEmpty] cfg3 [] ⟨272⟩ ig0 ⟨0, some 4⟩ 4 rfl rfl rfl
    (by intro c2 h2
        simp only [List.mem_cons, List.mem_singleton] at h2
        rcases h2 with rfl | rfl | h2
        · rfl
        · rfl
        · simp at h2)
    rfl rfl rfl rfl
  exact ⟨h.1, (h.2.1 [Char.ofNat 68, Char.ofNat 70, Char.ofNat 85] rfl).1
    ⟨1⟩ rfl⟩
